import Mathlib

/-!
Verification of the backend relay server (src/server.js).

The server is embedded shallowly: each Express handler becomes a pure Lean
function from a provider (the Gemini SDK seam) and a request body to the
HTTP response it sends together with the ordered list of provider calls it
issued.  Absent JSON fields are `none`; JavaScript truthiness on strings
(absent and empty are falsy) is modelled by `truthy`, and JavaScript string
interpolation of a possibly absent value (which prints `undefined`) by
`interp`.
-/

namespace Server

/-- JS truthiness of an optional string request field: absent (`none`) and
the empty string are falsy, every other string is truthy. -/
def truthy : Option String → Bool
  | none => false
  | some s => s != ""

/-- JS template-literal interpolation of a possibly absent field:
`undefined` prints as the literal text `undefined`. -/
def interp : Option String → String
  | none => "undefined"
  | some s => s

/-- An inline image attachment sent to the provider (`inlineData` in the
source): base64 data plus a media type. -/
structure Attachment where
  data : String
  mimeType : String
  deriving Repr, DecidableEq

/-- One generation request sent to the provider: the prompt string and the
ordered attachments (empty for text-only calls). -/
structure GenRequest where
  prompt : String
  attachments : List Attachment
  deriving Repr, DecidableEq

/-- The JSON response an endpoint sends: HTTP status plus a flat object of
string fields. -/
structure HttpResponse where
  status : Nat
  body : List (String × String)
  deriving Repr, DecidableEq

/-- The provider seam (`model.generateContent` + `response.text()`): a
generation request either yields the raw output text or raises an error
carrying a message. -/
def Provider := GenRequest → Except String String

/-- Request body of POST /api/translate. -/
structure TranslateReq where
  text : Option String
  fromLang : Option String
  toLang : Option String
  deriving Repr

/-- Prompt template of /api/translate (src/server.js line 68). -/
def translatePrompt (fromLang toLang text : String) : String :=
  "Translate the following text from " ++ fromLang ++ " to " ++ toLang ++
    ". Only provide the translated text, nothing else.\nText: \"" ++ text ++ "\""

/-- Handler of POST /api/translate (src/server.js lines 59-84). -/
def translate (gen : Provider) (req : TranslateReq) : HttpResponse × List GenRequest :=
  if !truthy req.text || !truthy req.fromLang || !truthy req.toLang then
    (⟨400, [("error", "Missing text, fromLang, or toLang in request.")]⟩, [])
  else
    let greq : GenRequest :=
      ⟨translatePrompt (interp req.fromLang) (interp req.toLang) (interp req.text), []⟩
    match gen greq with
    | Except.ok raw =>
        (⟨200, [("translatedText", raw.trim)]⟩, [greq])
    | Except.error msg =>
        (⟨500, [("error", "Failed to translate text. Please check your API key and input."),
                ("details", msg)]⟩, [greq])

/-- Request body of POST /api/summarize. -/
structure SummarizeReq where
  text : Option String
  summaryType : Option String
  deriving Repr

/-- Prompt selection by summaryType (src/server.js lines 94-111), with the
default case for unrecognized values. -/
def summaryPrompt (summaryType text : String) : String :=
  match summaryType with
  | "brief" =>
      "Provide a very brief, 1-2 sentence summary of the following text. Only the summary.\nText: \"" ++ text ++ "\""
  | "detailed" =>
      "Provide a detailed, 3-5 sentence summary of the following text. Only the summary.\nText: \"" ++ text ++ "\""
  | "bullets" =>
      "Summarize the following text into 3-5 key bullet points. Only the bullet points.\nText: \"" ++ text ++ "\""
  | "key" =>
      "Extract the absolute 3-5 most important key points from the following text as a numbered list. Only the numbered list.\nText: \"" ++ text ++ "\""
  | _ =>
      "Summarize the following text. Only the summary.\nText: \"" ++ text ++ "\""

/-- The fixed secondary prompt used to populate keyPoints
(src/server.js line 125). -/
def keyPointsPrompt (text : String) : String :=
  "Extract 3-5 key takeaways from the following text as bullet points:\n\"" ++ text ++ "\""

/-- The 500 envelope of /api/summarize (src/server.js line 138). -/
def summarizeFailBody (msg : String) : List (String × String) :=
  [("error", "Failed to summarize text. Please check your API key and input."),
   ("details", msg)]

/-- Handler of POST /api/summarize (src/server.js lines 87-140).  A failure
of either generation call lands in the single catch block. -/
def summarize (gen : Provider) (req : SummarizeReq) : HttpResponse × List GenRequest :=
  if !truthy req.text || !truthy req.summaryType then
    (⟨400, [("error", "Missing text or summaryType in request.")]⟩, [])
  else
    let st := interp req.summaryType
    let text := interp req.text
    let greq : GenRequest := ⟨summaryPrompt st text, []⟩
    match gen greq with
    | Except.error msg => (⟨500, summarizeFailBody msg⟩, [greq])
    | Except.ok raw =>
        let summary := raw.trim
        if st == "bullets" || st == "key" then
          (⟨200, [("summary", summary), ("keyPoints", summary)]⟩, [greq])
        else
          let kpReq : GenRequest := ⟨keyPointsPrompt text, []⟩
          match gen kpReq with
          | Except.error msg => (⟨500, summarizeFailBody msg⟩, [greq, kpReq])
          | Except.ok kraw =>
              (⟨200, [("summary", summary), ("keyPoints", kraw.trim)]⟩, [greq, kpReq])

/-- Request body of POST /api/analyze-image. -/
structure AnalyzeImageReq where
  imageData : Option String
  imageMimeType : Option String
  deriving Repr

/-- The fixed vision prompt of /api/analyze-image (src/server.js line 169). -/
def analyzeImagePrompt : String :=
  "Describe this image in detail, including objects, actions, and overall context. Keep the description concise, 2-3 sentences."

/-- Handler of POST /api/analyze-image (src/server.js lines 143-184).  The
media type is `req.body.imageMimeType || 'image/jpeg'`: any falsy value
(absent or empty) falls back to `image/jpeg`. -/
def analyzeImage (gen : Provider) (req : AnalyzeImageReq) : HttpResponse × List GenRequest :=
  if !truthy req.imageData then
    (⟨400, [("error", "Missing image data in request.")]⟩, [])
  else
    let mimeType := if truthy req.imageMimeType then interp req.imageMimeType else "image/jpeg"
    let greq : GenRequest := ⟨analyzeImagePrompt, [⟨interp req.imageData, mimeType⟩]⟩
    match gen greq with
    | Except.ok raw =>
        (⟨200, [("description", raw.trim)]⟩, [greq])
    | Except.error msg =>
        (⟨500, [("error", "Failed to analyze image. Please ensure your API key is correct and the image is valid."),
                ("details", msg)]⟩, [greq])

/-- Request body of POST /api/analyze-audio. -/
structure AnalyzeAudioReq where
  audioData : Option String
  deriving Repr

/-- Hardcoded transcription string (src/server.js line 210). -/
def simulatedTranscription : String :=
  "This is a simulated transcription of your audio. For real transcription, consider using a dedicated Speech-to-Text API."

/-- Hardcoded emotion string (src/server.js line 211). -/
def simulatedEmotion : String :=
  "Simulated emotion: Neutral, with hints of curiosity. (Real emotion analysis would be derived from the transcribed text using a language model)."

/-- Observable outcome of the audio stub: the simulated delay in
milliseconds, the response, and the provider calls issued. -/
structure AudioResult where
  delayMs : Nat
  response : HttpResponse
  calls : List GenRequest
  deriving Repr, DecidableEq

/-- Handler of POST /api/analyze-audio (src/server.js lines 191-219): a
stub that waits 2500 ms, issues no provider call, and returns the two
hardcoded strings whatever the request holds (a missing audioData only
logs a warning). -/
def analyzeAudio (_req : AnalyzeAudioReq) : AudioResult :=
  ⟨2500,
   ⟨200, [("transcription", simulatedTranscription), ("emotion", simulatedEmotion)]⟩,
   []⟩

/-- Request body of POST /api/resume/generate-summary. -/
structure GenerateSummaryReq where
  existingSummary : Option String
  role : Option String
  experienceLevel : Option String
  deriving Repr

/-- Prompt template of /api/resume/generate-summary (src/server.js line 225). -/
def generateSummaryPrompt (existingSummary role experienceLevel : String) : String :=
  "Generate a concise, impactful professional summary for a " ++ role ++ " with " ++
    experienceLevel ++ " experience. Incorporate this existing information: \"" ++
    existingSummary ++ "\". Focus on achievements and relevant skills. Keep it to 3-5 sentences."

/-- Handler of POST /api/resume/generate-summary (src/server.js lines
222-237): no field validation, the prompt interpolates the raw fields. -/
def generateSummary (gen : Provider) (req : GenerateSummaryReq) : HttpResponse × List GenRequest :=
  let greq : GenRequest :=
    ⟨generateSummaryPrompt (interp req.existingSummary) (interp req.role)
        (interp req.experienceLevel), []⟩
  match gen greq with
  | Except.ok raw =>
      (⟨200, [("generatedSummary", raw.trim)]⟩, [greq])
  | Except.error msg =>
      (⟨500, [("error", "Failed to generate summary. Please check your API key."),
              ("details", msg)]⟩, [greq])

/-- Request body of POST /api/resume/optimize-skills. -/
structure OptimizeSkillsReq where
  currentSkills : Option String
  jobDescriptionKeywords : Option String
  deriving Repr

/-- Prompt template of /api/resume/optimize-skills (src/server.js line 242). -/
def optimizeSkillsPrompt (currentSkills jobDescriptionKeywords : String) : String :=
  "Optimize the following skills for a resume, considering these job requirements/keywords: \"" ++
    jobDescriptionKeywords ++ "\". Suggest 5-10 strong, relevant skills based on \"" ++
    currentSkills ++ "\". Provide as a comma-separated list of skills."

/-- Handler of POST /api/resume/optimize-skills (src/server.js lines
239-254): no field validation, the prompt interpolates the raw fields. -/
def optimizeSkills (gen : Provider) (req : OptimizeSkillsReq) : HttpResponse × List GenRequest :=
  let greq : GenRequest :=
    ⟨optimizeSkillsPrompt (interp req.currentSkills) (interp req.jobDescriptionKeywords), []⟩
  match gen greq with
  | Except.ok raw =>
      (⟨200, [("optimizedSkills", raw.trim)]⟩, [greq])
  | Except.error msg =>
      (⟨500, [("error", "Failed to optimize skills. Please check your API key."),
              ("details", msg)]⟩, [greq])

/-- The per-operation inputs of the prompt builder, one variant per
endpoint that builds a prompt from request fields. -/
inductive OperationInput where
  | translateIn (text fromLang toLang : String)
  | summarizeIn (text summaryType : String)
  | analyzeImageIn
  | generateResumeSummaryIn (existingSummary role experienceLevel : String)
  | optimizeSkillsIn (currentSkills jobDescriptionKeywords : String)
  deriving Repr, DecidableEq

/-- The primary prompt each operation sends, as the handlers build it. -/
def buildPrompt : OperationInput → String
  | OperationInput.translateIn text fromLang toLang => translatePrompt fromLang toLang text
  | OperationInput.summarizeIn text summaryType => summaryPrompt summaryType text
  | OperationInput.analyzeImageIn => analyzeImagePrompt
  | OperationInput.generateResumeSummaryIn e r x => generateSummaryPrompt e r x
  | OperationInput.optimizeSkillsIn c j => optimizeSkillsPrompt c j

/-- A provider stub that always succeeds with a fixed text. -/
def genOk : Provider := fun _ => Except.ok "  Bonjour  "

/-- A provider stub that always raises the message `boom`. -/
def genFail : Provider := fun _ => Except.error "boom"

/-- Raw output of the echoing provider stub: the prompt wrapped in
whitespace, so that trimming is observable. -/
def fOut (r : GenRequest) : String := "  out " ++ r.prompt ++ "  "

/-- A provider stub that always succeeds, echoing `fOut`. -/
def genF : Provider := fun r => Except.ok (fOut r)

/-- A 400 response whose body carries a nonempty error message, with no
provider call issued. -/
def rejected400 (r : HttpResponse × List GenRequest) : Prop :=
  r.1.status = 400 ∧
    (∃ m, List.lookup "error" r.1.body = some m ∧ m ≠ "") ∧
    r.2 = []

/-- C1: for each operation with required fields (translate: text, fromLang,
toLang; summarize: text, summaryType; analyze-image: imageData), a request
omitting at least one required field gets an HTTP 400 response containing
an error message and the provider is never invoked. -/
theorem c1_missing_required_field_400
    (gen : Provider) (treq : TranslateReq) (sreq : SummarizeReq) (ireq : AnalyzeImageReq)
    (ht : treq.text = none ∨ treq.fromLang = none ∨ treq.toLang = none)
    (hs : sreq.text = none ∨ sreq.summaryType = none)
    (hi : ireq.imageData = none) :
    rejected400 (translate gen treq) ∧
    rejected400 (summarize gen sreq) ∧
    rejected400 (analyzeImage gen ireq) := by
  have htc : (!truthy treq.text || !truthy treq.fromLang || !truthy treq.toLang) = true := by
    rcases ht with h | h | h <;> simp [h, truthy]
  have hsc : (!truthy sreq.text || !truthy sreq.summaryType) = true := by
    rcases hs with h | h <;> simp [h, truthy]
  have hic : (!truthy ireq.imageData) = true := by simp [hi, truthy]
  refine ⟨?_, ?_, ?_⟩ <;>
    simp [translate, summarize, analyzeImage, htc, hsc, hic, rejected400, List.lookup]

/-- C1 witness: concrete requests each omitting one required field, with a
concrete provider stub, are all rejected with 400 and no provider call. -/
theorem c1_missing_required_field_400_witness :
    rejected400 (translate genOk ⟨none, some "English", some "French"⟩) ∧
    rejected400 (summarize genOk ⟨some "hello", none⟩) ∧
    rejected400 (analyzeImage genOk ⟨none, some "image/png"⟩) :=
  c1_missing_required_field_400 genOk ⟨none, some "English", some "French"⟩
    ⟨some "hello", none⟩ ⟨none, some "image/png"⟩
    (Or.inl rfl) (Or.inr rfl) rfl

/-- C2: a summarize request with summaryType `bullets` or `key` (and a
nonempty text, so that it passes validation) issues exactly one provider
call, and whenever the response is a success its keyPoints field is
byte-identical to its summary field. -/
theorem c2_bullets_key_reuse_summary
    (gen : Provider) (req : SummarizeReq) (t st : String)
    (htext : req.text = some t) (htne : t ≠ "")
    (hst : req.summaryType = some st) (hbk : st = "bullets" ∨ st = "key") :
    (summarize gen req).2.length = 1 ∧
    ((summarize gen req).1.status = 200 →
      List.lookup "keyPoints" (summarize gen req).1.body =
        List.lookup "summary" (summarize gen req).1.body) := by
  have hstne : st ≠ "" := by rcases hbk with h | h <;> simp [h]
  have h1t : truthy (some t) = true := by simp [truthy, htne]
  have h1s : truthy (some st) = true := by simp [truthy, hstne]
  have hbkb : (st == "bullets" || st == "key") = true := by
    rcases hbk with h | h <;> simp [h]
  rcases hgen : gen ⟨summaryPrompt st t, []⟩ with msg | raw <;>
    simp [summarize, htext, hst, h1t, h1s, interp, hgen, hbkb, List.lookup]

/-- C2 witness: a concrete bullets-type request with a succeeding provider
stub makes one call and returns identical summary and keyPoints. -/
theorem c2_bullets_key_reuse_summary_witness :
    (summarize genOk ⟨some "hello world", some "bullets"⟩).2.length = 1 ∧
    ((summarize genOk ⟨some "hello world", some "bullets"⟩).1.status = 200 →
      List.lookup "keyPoints" (summarize genOk ⟨some "hello world", some "bullets"⟩).1.body =
        List.lookup "summary" (summarize genOk ⟨some "hello world", some "bullets"⟩).1.body) :=
  c2_bullets_key_reuse_summary genOk ⟨some "hello world", some "bullets"⟩
    "hello world" "bullets" rfl (by decide) rfl (Or.inl rfl)

/-- C3: a summarize request whose nonempty summaryType is neither `bullets`
nor `key` (so brief, detailed, or any unrecognized value) issues, when the
provider succeeds on both prompts, exactly two calls: first the summary
prompt selected for that summaryType, then the fixed key-takeaways prompt;
the summary field is the first result trimmed and keyPoints is the second
result trimmed. -/
theorem c3_two_provider_calls
    (gen : Provider) (req : SummarizeReq) (t st r1 r2 : String)
    (htext : req.text = some t) (htne : t ≠ "")
    (hst : req.summaryType = some st) (hstne : st ≠ "")
    (hnb : st ≠ "bullets") (hnk : st ≠ "key")
    (h1 : gen ⟨summaryPrompt st t, []⟩ = Except.ok r1)
    (h2 : gen ⟨keyPointsPrompt t, []⟩ = Except.ok r2) :
    (summarize gen req).2 = [⟨summaryPrompt st t, []⟩, ⟨keyPointsPrompt t, []⟩] ∧
    List.lookup "summary" (summarize gen req).1.body = some r1.trim ∧
    List.lookup "keyPoints" (summarize gen req).1.body = some r2.trim := by
  have h1t : truthy (some t) = true := by simp [truthy, htne]
  have h1s : truthy (some st) = true := by simp [truthy, hstne]
  have hbkb : (st == "bullets" || st == "key") = false := by
    simp [hnb, hnk]
  simp [summarize, htext, hst, h1t, h1s, interp, h1, h2, hbkb, List.lookup]

/-- C3 witness: a concrete brief-type request with a succeeding provider
stub makes exactly the two expected calls and fills both fields from the
trimmed results. -/
theorem c3_two_provider_calls_witness :
    (summarize genOk ⟨some "hello world", some "brief"⟩).2 =
      [⟨summaryPrompt "brief" "hello world", []⟩, ⟨keyPointsPrompt "hello world", []⟩] ∧
    List.lookup "summary" (summarize genOk ⟨some "hello world", some "brief"⟩).1.body =
      some (String.trim "  Bonjour  ") ∧
    List.lookup "keyPoints" (summarize genOk ⟨some "hello world", some "brief"⟩).1.body =
      some (String.trim "  Bonjour  ") :=
  c3_two_provider_calls genOk ⟨some "hello world", some "brief"⟩
    "hello world" "brief" "  Bonjour  " "  Bonjour  "
    rfl (by decide) rfl (by decide) (by decide) (by decide) rfl rfl

/-- A 500 response whose body carries a nonempty generic error message and
a details field equal to the raised message. -/
def failed500 (r : HttpResponse × List GenRequest) (msg : String) : Prop :=
  r.1.status = 500 ∧
    (∃ e, List.lookup "error" r.1.body = some e ∧ e ≠ "") ∧
    List.lookup "details" r.1.body = some msg

/-- C4: when the provider raises an error, every AI-backed endpoint
(translate, summarize, analyze-image, generate-resume-summary,
optimize-skills), given a request that passes its validation, returns HTTP
500 with a nonempty generic error message and a details field equal to the
raised message. -/
theorem c4_provider_error_500
    (gen : Provider) (msg : String) (hgen : ∀ r, gen r = Except.error msg)
    (treq : TranslateReq) (sreq : SummarizeReq) (ireq : AnalyzeImageReq)
    (rreq : GenerateSummaryReq) (oreq : OptimizeSkillsReq)
    (ht1 : truthy treq.text = true) (ht2 : truthy treq.fromLang = true)
    (ht3 : truthy treq.toLang = true)
    (hs1 : truthy sreq.text = true) (hs2 : truthy sreq.summaryType = true)
    (hi1 : truthy ireq.imageData = true) :
    failed500 (translate gen treq) msg ∧
    failed500 (summarize gen sreq) msg ∧
    failed500 (analyzeImage gen ireq) msg ∧
    failed500 (generateSummary gen rreq) msg ∧
    failed500 (optimizeSkills gen oreq) msg := by
  refine ⟨?_, ?_, ?_, ?_, ?_⟩ <;>
    simp [translate, summarize, analyzeImage, generateSummary, optimizeSkills,
      failed500, summarizeFailBody, ht1, ht2, ht3, hs1, hs2, hi1, hgen, List.lookup]

/-- C4 witness: concrete valid requests against a provider stub raising
`boom` all get a 500 with details `boom`. -/
theorem c4_provider_error_500_witness :
    failed500 (translate genFail ⟨some "Hello", some "English", some "French"⟩) "boom" ∧
    failed500 (summarize genFail ⟨some "hello", some "brief"⟩) "boom" ∧
    failed500 (analyzeImage genFail ⟨some "QUJD", none⟩) "boom" ∧
    failed500 (generateSummary genFail ⟨some "s", some "dev", some "junior"⟩) "boom" ∧
    failed500 (optimizeSkills genFail ⟨some "c", some "k"⟩) "boom" :=
  c4_provider_error_500 genFail "boom" (fun _ => rfl)
    ⟨some "Hello", some "English", some "French"⟩ ⟨some "hello", some "brief"⟩
    ⟨some "QUJD", none⟩ ⟨some "s", some "dev", some "junior"⟩ ⟨some "c", some "k"⟩
    rfl rfl rfl rfl rfl rfl

/-- C5: every analyze-audio request, with or without audioData, gets the
same fixed transcription and emotion strings after the fixed simulated
delay of 2500 ms, and no provider generation call is made. -/
theorem c5_audio_stub_fixed (req : AnalyzeAudioReq) :
    (analyzeAudio req).delayMs = 2500 ∧
    (analyzeAudio req).response =
      ⟨200, [("transcription", simulatedTranscription), ("emotion", simulatedEmotion)]⟩ ∧
    (analyzeAudio req).calls = [] :=
  ⟨rfl, rfl, rfl⟩

/-- C6: prompt building is deterministic: two invocations of the prompt
builder on identical OperationInput field values produce byte-identical
prompt strings (purity is inherent in the embedding: the templates are
functions of their inputs alone). -/
theorem c6_prompt_deterministic (i j : OperationInput) (h : i = j) :
    buildPrompt i = buildPrompt j := by rw [h]

/-- C6 witness: two invocations on the same concrete translate input give
the same prompt. -/
theorem c6_prompt_deterministic_witness :
    buildPrompt (OperationInput.translateIn "Hello" "English" "French") =
      buildPrompt (OperationInput.translateIn "Hello" "English" "French") :=
  c6_prompt_deterministic (OperationInput.translateIn "Hello" "English" "French")
    (OperationInput.translateIn "Hello" "English" "French") rfl

/-- C7: on every successful generation, the text returned to the client
(translatedText, summary, keyPoints, description, generatedSummary,
optimizedSkills) is the raw output the provider produced for the issued
request, with leading and trailing whitespace removed. -/
theorem c7_output_is_trimmed_raw
    (gen : Provider) (f : GenRequest → String) (hgen : ∀ r, gen r = Except.ok (f r))
    (treq : TranslateReq) (sreq : SummarizeReq) (ireq : AnalyzeImageReq)
    (rreq : GenerateSummaryReq) (oreq : OptimizeSkillsReq)
    (ht1 : truthy treq.text = true) (ht2 : truthy treq.fromLang = true)
    (ht3 : truthy treq.toLang = true)
    (hs1 : truthy sreq.text = true) (hs2 : truthy sreq.summaryType = true)
    (hi1 : truthy ireq.imageData = true) :
    List.lookup "translatedText" (translate gen treq).1.body =
      some ((f ⟨translatePrompt (interp treq.fromLang) (interp treq.toLang)
        (interp treq.text), []⟩).trim) ∧
    List.lookup "summary" (summarize gen sreq).1.body =
      some ((f ⟨summaryPrompt (interp sreq.summaryType) (interp sreq.text), []⟩).trim) ∧
    List.lookup "keyPoints" (summarize gen sreq).1.body =
      some ((f (if interp sreq.summaryType == "bullets" || interp sreq.summaryType == "key"
          then ⟨summaryPrompt (interp sreq.summaryType) (interp sreq.text), []⟩
          else ⟨keyPointsPrompt (interp sreq.text), []⟩)).trim) ∧
    List.lookup "description" (analyzeImage gen ireq).1.body =
      some ((f ⟨analyzeImagePrompt, [⟨interp ireq.imageData,
        if truthy ireq.imageMimeType then interp ireq.imageMimeType
        else "image/jpeg"⟩]⟩).trim) ∧
    List.lookup "generatedSummary" (generateSummary gen rreq).1.body =
      some ((f ⟨generateSummaryPrompt (interp rreq.existingSummary) (interp rreq.role)
        (interp rreq.experienceLevel), []⟩).trim) ∧
    List.lookup "optimizedSkills" (optimizeSkills gen oreq).1.body =
      some ((f ⟨optimizeSkillsPrompt (interp oreq.currentSkills)
        (interp oreq.jobDescriptionKeywords), []⟩).trim) := by
  refine ⟨?_, ?_, ?_, ?_, ?_, ?_⟩
  · simp [translate, ht1, ht2, ht3, hgen, List.lookup]
  · cases hb : (interp sreq.summaryType == "bullets" || interp sreq.summaryType == "key") <;>
      simp [summarize, hs1, hs2, hgen, hb, List.lookup]
  · cases hb : (interp sreq.summaryType == "bullets" || interp sreq.summaryType == "key") <;>
      simp [summarize, hs1, hs2, hgen, hb, List.lookup]
  · simp [analyzeImage, hi1, hgen, List.lookup]
  · simp [generateSummary, hgen, List.lookup]
  · simp [optimizeSkills, hgen, List.lookup]

/-- C7 witness: with the echoing provider stub and concrete valid requests,
every returned field is the trimmed raw output of the corresponding call. -/
theorem c7_output_is_trimmed_raw_witness :
    List.lookup "translatedText"
      (translate genF ⟨some "Hello", some "English", some "French"⟩).1.body =
      some ((fOut ⟨translatePrompt (interp (some "English")) (interp (some "French"))
        (interp (some "Hello")), []⟩).trim) ∧
    List.lookup "summary" (summarize genF ⟨some "hi", some "brief"⟩).1.body =
      some ((fOut ⟨summaryPrompt (interp (some "brief")) (interp (some "hi")), []⟩).trim) ∧
    List.lookup "keyPoints" (summarize genF ⟨some "hi", some "brief"⟩).1.body =
      some ((fOut (if interp (some "brief") == "bullets" || interp (some "brief") == "key"
          then ⟨summaryPrompt (interp (some "brief")) (interp (some "hi")), []⟩
          else ⟨keyPointsPrompt (interp (some "hi")), []⟩)).trim) ∧
    List.lookup "description" (analyzeImage genF ⟨some "QUJD", none⟩).1.body =
      some ((fOut ⟨analyzeImagePrompt, [⟨interp (some "QUJD"),
        if truthy (none : Option String) then interp (none : Option String)
        else "image/jpeg"⟩]⟩).trim) ∧
    List.lookup "generatedSummary"
      (generateSummary genF ⟨some "s", some "dev", some "junior"⟩).1.body =
      some ((fOut ⟨generateSummaryPrompt (interp (some "s")) (interp (some "dev"))
        (interp (some "junior")), []⟩).trim) ∧
    List.lookup "optimizedSkills" (optimizeSkills genF ⟨some "c", some "k"⟩).1.body =
      some ((fOut ⟨optimizeSkillsPrompt (interp (some "c")) (interp (some "k")), []⟩).trim) :=
  c7_output_is_trimmed_raw genF fOut (fun _ => rfl)
    ⟨some "Hello", some "English", some "French"⟩ ⟨some "hi", some "brief"⟩
    ⟨some "QUJD", none⟩ ⟨some "s", some "dev", some "junior"⟩ ⟨some "c", some "k"⟩
    rfl rfl rfl rfl rfl rfl

/-- C8: the two resume endpoints perform no field-presence validation: for
every request, even with all fields absent, the status is never 400, and
the provider is invoked exactly once with the prompt interpolating the
(possibly undefined) fields. -/
theorem c8_resume_no_validation
    (gen : Provider) (rreq : GenerateSummaryReq) (oreq : OptimizeSkillsReq) :
    (generateSummary gen rreq).1.status ≠ 400 ∧
    (generateSummary gen rreq).2 =
      [⟨generateSummaryPrompt (interp rreq.existingSummary) (interp rreq.role)
          (interp rreq.experienceLevel), []⟩] ∧
    (optimizeSkills gen oreq).1.status ≠ 400 ∧
    (optimizeSkills gen oreq).2 =
      [⟨optimizeSkillsPrompt (interp oreq.currentSkills)
          (interp oreq.jobDescriptionKeywords), []⟩] := by
  refine ⟨?_, ?_, ?_, ?_⟩ <;>
    [rcases h : gen ⟨generateSummaryPrompt (interp rreq.existingSummary) (interp rreq.role)
        (interp rreq.experienceLevel), []⟩ with msg | raw;
     rcases h : gen ⟨generateSummaryPrompt (interp rreq.existingSummary) (interp rreq.role)
        (interp rreq.experienceLevel), []⟩ with msg | raw;
     rcases h : gen ⟨optimizeSkillsPrompt (interp oreq.currentSkills)
        (interp oreq.jobDescriptionKeywords), []⟩ with msg | raw;
     rcases h : gen ⟨optimizeSkillsPrompt (interp oreq.currentSkills)
        (interp oreq.jobDescriptionKeywords), []⟩ with msg | raw] <;>
    simp [generateSummary, optimizeSkills, h]

/-- C9: for analyze-image requests, an absent imageMimeType makes the
attachment media type `image/jpeg`, while a supplied nonempty imageMimeType
is used unmodified: shown on two requests, one of each kind. -/
theorem c9_mime_type_default
    (gen : Provider) (ireq1 ireq2 : AnalyzeImageReq) (d1 d2 m : String)
    (h1 : ireq1.imageData = some d1) (h1ne : d1 ≠ "") (h1m : ireq1.imageMimeType = none)
    (h2 : ireq2.imageData = some d2) (h2ne : d2 ≠ "") (h2m : ireq2.imageMimeType = some m)
    (hm : m ≠ "") :
    (analyzeImage gen ireq1).2 = [⟨analyzeImagePrompt, [⟨d1, "image/jpeg"⟩]⟩] ∧
    (analyzeImage gen ireq2).2 = [⟨analyzeImagePrompt, [⟨d2, m⟩]⟩] := by
  have hd1 : truthy (some d1) = true := by simp [truthy, h1ne]
  have hd2 : truthy (some d2) = true := by simp [truthy, h2ne]
  have hmm : truthy (some m) = true := by simp [truthy, hm]
  constructor
  · rcases hg : gen ⟨analyzeImagePrompt, [⟨d1, "image/jpeg"⟩]⟩ with msg | raw <;>
      simp [analyzeImage, h1, h1m, hd1, h1ne, truthy, interp, hg]
  · rcases hg : gen ⟨analyzeImagePrompt, [⟨d2, m⟩]⟩ with msg | raw <;>
      simp [analyzeImage, h2, h2m, hd2, hmm, interp, hg]

/-- C9 witness: with concrete requests, the attachment media type defaults
to image/jpeg when absent and is taken unmodified when supplied. -/
theorem c9_mime_type_default_witness :
    (analyzeImage genOk ⟨some "QUJD", none⟩).2 =
      [⟨analyzeImagePrompt, [⟨"QUJD", "image/jpeg"⟩]⟩] ∧
    (analyzeImage genOk ⟨some "QUJD", some "image/png"⟩).2 =
      [⟨analyzeImagePrompt, [⟨"QUJD", "image/png"⟩]⟩] :=
  c9_mime_type_default genOk ⟨some "QUJD", none⟩ ⟨some "QUJD", some "image/png"⟩
    "QUJD" "QUJD" "image/png" rfl (by decide) rfl rfl (by decide) rfl (by decide)

/-- C10: an analyze-image request whose imageData is present but empty is
rejected with HTTP 400 and the provider is not invoked (the handler tests
JS truthiness, under which the empty string is falsy). -/
theorem c10_empty_image_data_rejected
    (gen : Provider) (ireq : AnalyzeImageReq) (h : ireq.imageData = some "") :
    (analyzeImage gen ireq).1.status = 400 ∧ (analyzeImage gen ireq).2 = [] := by
  simp [analyzeImage, truthy, h]

/-- C10 witness: the concrete request with empty imageData is rejected with
400 and no provider call. -/
theorem c10_empty_image_data_rejected_witness :
    (analyzeImage genOk ⟨some "", some "image/png"⟩).1.status = 400 ∧
    (analyzeImage genOk ⟨some "", some "image/png"⟩).2 = [] :=
  c10_empty_image_data_rejected genOk ⟨some "", some "image/png"⟩ rfl

end Server
